import Mathlib

/-!
# Verification of the verdent authentication/session-security core

Shallow embedding of the token codec, revocation store, session issuer,
request gate, client-side refresh coordinator and HTTP interceptor of the
repository, together with theorems settling the frozen claims about them.

Conventions of the embedding:
* JWT strings are modelled by `TokenStr`: either a signed payload (the
  signature is modelled by remembering which secret signed the payload;
  verification succeeds exactly when the verifying secret equals the
  signing secret) or an arbitrary raw string that is not a valid JWT.
* Times are `Nat` (seconds for JWT claims, milliseconds for the in-memory
  blacklist, mirroring the units of the source).
* Environment configuration (`process.env`) is a `Config` record threaded
  through every definition.
* Database access (Mongoose `User` collection) is a `List User` passed and
  returned explicitly; `findById`/`findOne` are list lookups.
-/

namespace Verdent

/-! ## Token codec (middleware/auth.js, middleware/auth-enhanced.js) -/

/-- The decoded claims of a JWT as produced by the repository's minting
functions: subject id, optional `type` tag, issued-at, expiry, optional
issuer/audience, optional fingerprint (`fp`). -/
structure Payload where
  id : Nat
  typ : Option String
  iat : Nat
  exp : Nat
  iss : Option String
  aud : Option String
  fp : Option String
deriving DecidableEq, Repr

/-- A token string on the wire: either `jwt.sign(payload, secret)` output,
or a raw string that is not a well-formed signed JWT. -/
inductive TokenStr where
  | signed (payload : Payload) (secret : String)
  | raw (s : String)
deriving DecidableEq, Repr

/-- The environment configuration consumed by the auth core
(`process.env.JWT_SECRET`, `JWT_REFRESH_SECRET`, `JWT_ISSUER`,
`JWT_AUDIENCE`, with the source's defaults already applied). -/
structure Config where
  jwtSecret : String
  jwtRefreshSecret : String
  jwtIssuer : String
  jwtAudience : String
deriving DecidableEq, Repr

/-- Verification failures of `jsonwebtoken`, plus the fingerprint mismatch
error thrown by `verifyTokenWithFingerprint`. `expired` is
`TokenExpiredError`; `invalid` is `JsonWebTokenError` (bad signature,
malformed token, issuer/audience mismatch). -/
inductive VerifyErr where
  | expired
  | invalid
  | fpMismatch
deriving DecidableEq, Repr

/-- `jwt.verify(token, secret, { issuer, audience })`: signature check,
then expiry, then audience and issuer claims. -/
def jwtVerify (t : TokenStr) (secret issuer audience : String) (now : Nat) :
    Except VerifyErr Payload :=
  match t with
  | .raw _ => .error .invalid
  | .signed p s =>
    if s ≠ secret then .error .invalid
    else if p.exp ≤ now then .error .expired
    else if p.aud ≠ some audience then .error .invalid
    else if p.iss ≠ some issuer then .error .invalid
    else .ok p

/-- `jwt.verify(token, secret)` with no issuer/audience options: signature
and expiry only (used by `verifyTokenWithFingerprint`). -/
def jwtVerifyNoClaims (t : TokenStr) (secret : String) (now : Nat) :
    Except VerifyErr Payload :=
  match t with
  | .raw _ => .error .invalid
  | .signed p s =>
    if s ≠ secret then .error .invalid
    else if p.exp ≤ now then .error .expired
    else .ok p

/-- Seconds in 15 minutes. -/
def min15 : Nat := 15 * 60
/-- Seconds in 7 days. -/
def day7 : Nat := 7 * 24 * 60 * 60
/-- Seconds in 30 days. -/
def day30 : Nat := 30 * 24 * 60 * 60

/-- `generateAccessToken(userId, remember)` from middleware/auth.js:
signs `{id, type:'access', iat}` with `JWT_SECRET`, stamping issuer and
audience, expiring in 7d (remember) or 15m. -/
def generateAccessToken (cfg : Config) (userId : Nat) (remember : Bool) (now : Nat) : TokenStr :=
  .signed
    { id := userId, typ := some "access", iat := now
      exp := now + (if remember then day7 else min15)
      iss := some cfg.jwtIssuer, aud := some cfg.jwtAudience, fp := none }
    cfg.jwtSecret

/-- `generateRefreshToken(userId, remember)` from middleware/auth.js:
signs `{id, type:'refresh', iat}` with `JWT_REFRESH_SECRET`, stamping
issuer and audience, expiring in 30d (remember) or 7d. -/
def generateRefreshToken (cfg : Config) (userId : Nat) (remember : Bool) (now : Nat) : TokenStr :=
  .signed
    { id := userId, typ := some "refresh", iat := now
      exp := now + (if remember then day30 else day7)
      iss := some cfg.jwtIssuer, aud := some cfg.jwtAudience, fp := none }
    cfg.jwtRefreshSecret

/-- `generateTokens(userId, remember)` from routes/auth.js: the same two
mints as `generateAccessToken`/`generateRefreshToken`, returned as a pair. -/
def generateTokens (cfg : Config) (userId : Nat) (remember : Bool) (now : Nat) :
    TokenStr × TokenStr :=
  (.signed
    { id := userId, typ := some "access", iat := now
      exp := now + (if remember then day7 else min15)
      iss := some cfg.jwtIssuer, aud := some cfg.jwtAudience, fp := none }
    cfg.jwtSecret,
   .signed
    { id := userId, typ := some "refresh", iat := now
      exp := now + (if remember then day30 else day7)
      iss := some cfg.jwtIssuer, aud := some cfg.jwtAudience, fp := none }
    cfg.jwtRefreshSecret)

/-- `generateSecureTokens(userId, remember, fingerprint)` from
middleware/auth-enhanced.js: signs `{id, type, fp, iat}` with the
respective secret and an `expiresIn` option only — no issuer or audience
option is passed, so no `iss`/`aud` claim is stamped. -/
def generateSecureTokens (cfg : Config) (userId : Nat) (remember : Bool)
    (fingerprint : String) (now : Nat) : TokenStr × TokenStr :=
  (.signed
    { id := userId, typ := some "access", iat := now
      exp := now + (if remember then day7 else min15)
      iss := none, aud := none, fp := some fingerprint }
    cfg.jwtSecret,
   .signed
    { id := userId, typ := some "refresh", iat := now
      exp := now + (if remember then day30 else day7)
      iss := none, aud := none, fp := some fingerprint }
    cfg.jwtRefreshSecret)

/-- `verifyToken(token, isRefresh)` from middleware/auth.js: verifies
under the secret selected by `isRefresh`, always checking the configured
issuer and audience constants. -/
def verifyToken (cfg : Config) (t : TokenStr) (isRefresh : Bool) (now : Nat) :
    Except VerifyErr Payload :=
  jwtVerify t (if isRefresh then cfg.jwtRefreshSecret else cfg.jwtSecret)
    cfg.jwtIssuer cfg.jwtAudience now

/-- `verifyTokenWithFingerprint(token, fingerprint, isRefresh)` from
middleware/auth-enhanced.js: `jwt.verify` with no issuer/audience options,
then an equality check of the embedded `fp` claim. -/
def verifyTokenWithFingerprint (cfg : Config) (t : TokenStr) (fingerprint : String)
    (isRefresh : Bool) (now : Nat) : Except VerifyErr Payload :=
  match jwtVerifyNoClaims t (if isRefresh then cfg.jwtRefreshSecret else cfg.jwtSecret) now with
  | .error e => .error e
  | .ok decoded =>
    if decoded.fp ≠ some fingerprint then .error .fpMismatch
    else .ok decoded

/-- `generateRequestFingerprint(req)`: the deterministic join of ip,
user-agent and accept-language with `|`, missing components filtered out
(the sha256 step is modelled by the join itself, which is injective enough
for every claim stated here). -/
def generateRequestFingerprint (ip userAgent acceptLanguage : Option String) : String :=
  String.intercalate "|" (([ip, userAgent, acceptLanguage].filterMap id))

/-- JS `String.prototype.toLowerCase()`, written so that it reduces in the
kernel (character-wise lowering of the underlying character list). -/
def toLowerCase (s : String) : String := ⟨s.data.map Char.toLower⟩

/-! ## User records and the user store -/

/-- The fields of the Mongoose `User` document that the auth core reads or
writes. `password` holds the stored (hashed) password; the bcrypt
comparison is modelled as string equality of candidate against stored. -/
structure User where
  id : Nat
  email : String
  password : String
  isVerified : Bool
  isSuspended : Bool
  role : String
  refreshToken : Option TokenStr
  otp : Option String
  googleId : Option String
  lastLogin : Nat
  lastActive : Nat
  loginCount : Nat
deriving DecidableEq, Repr

/-- The user collection. -/
abbrev Db := List User

/-- `User.findById(id)`. -/
def findById (db : Db) (id : Nat) : Option User :=
  db.find? (fun u => u.id = id)

/-- `User.findOne({ email })` (the routes always query with
`toLowerCase emailCase()`, applied by the caller). -/
def findByEmail (db : Db) (email : String) : Option User :=
  db.find? (fun u => u.email = email)

/-- `User.findOne({ googleId })`. -/
def findByGoogleId (db : Db) (googleId : String) : Option User :=
  db.find? (fun u => u.googleId = some googleId)

/-- Replace the user with the given id (models `user.save()` /
`User.findByIdAndUpdate`). -/
def saveUser (db : Db) (u : User) : Db :=
  db.map (fun v => if v.id = u.id then u else v)

/-- `.select('-password -refreshToken -otp')`: the sensitive fields are
excluded from the loaded document. -/
def sanitizeUser (u : User) : User :=
  { u with password := "", refreshToken := none, otp := none }

/-- `user.correctPassword(candidate, stored)` / `user.comparePassword`:
the bcrypt comparison, modelled as equality with the stored value. -/
def correctPassword (candidate stored : String) : Bool :=
  candidate = stored

/-! ## Token blacklist (Redis-backed, middleware/auth.js) -/

/-- The outcome of `redis.exists('jwt-blacklist:'+hash)` as observed by
`isTokenBlacklisted`: a successful integer reply, or a thrown error. -/
abbrev RedisReply := Except String Nat

/-- `isTokenBlacklisted(token)`: returns `false` when Redis is not
available; returns whether the reply equals 1 on success; returns `false`
when the lookup throws (the catch block). -/
def isTokenBlacklisted (redisAvailable : Bool) (reply : RedisReply) : Bool :=
  if !redisAvailable then false
  else
    match reply with
    | .ok n => n = 1
    | .error _ => false

/-- `addToBlacklist`'s TTL computation: no decodable `exp` claim gives a
default 5-minute TTL; otherwise TTL is the remaining lifetime
`(exp - now) * 1000` ms, and nothing is stored when that is not positive. -/
def addToBlacklistTtl (decodedExp : Option Nat) (nowSec : Nat) : Option Nat :=
  match decodedExp with
  | none => some (5 * 60 * 1000)
  | some e => if 0 < (e - nowSec) * 1000 then some ((e - nowSec) * 1000) else none

/-! ## Request gate (the `auth` middleware, middleware/auth.js) -/

/-- The connection/client attributes of a request that the gate can see,
beyond the credential material itself. -/
structure ReqCtx where
  authHeaderToken : Option TokenStr
  cookieToken : Option TokenStr
  ip : Option String
  userAgent : Option String
  acceptLanguage : Option String
deriving DecidableEq, Repr

/-- The machine-readable error codes the `auth` middleware can answer
with (401 for all but `accountSuspended`, which is 403). -/
inductive AuthErr where
  | noToken
  | tokenInvalidated
  | tokenExpired
  | invalidToken
  | invalidTokenType
  | userNotFound
  | accountSuspended
deriving DecidableEq, Repr

/-- On success the gate attaches the sanitized user and the raw token to
the request context. -/
structure AuthOk where
  user : User
  token : TokenStr
deriving DecidableEq, Repr

/-- The `auth` middleware: extract the token from the Authorization header
else the cookie; blacklist check (failing open when the check itself
errors); `verifyToken` under the access secret; `type` claim must be
`'access'`; load and sanitize the user; reject suspended accounts. -/
def auth (cfg : Config) (db : Db) (req : ReqCtx)
    (redisAvailable : Bool) (reply : RedisReply) (now : Nat) :
    Except AuthErr AuthOk :=
  match req.authHeaderToken.orElse (fun _ => req.cookieToken) with
  | none => .error .noToken
  | some token =>
    if isTokenBlacklisted redisAvailable reply then .error .tokenInvalidated
    else
      match verifyToken cfg token false now with
      | .error .expired => .error .tokenExpired
      | .error .invalid => .error .invalidToken
      | .error .fpMismatch => .error .invalidToken
      | .ok decoded =>
        if decoded.typ ≠ some "access" then .error .invalidTokenType
        else
          match findById db decoded.id with
          | none => .error .userNotFound
          | some user =>
            if user.isSuspended then .error .accountSuspended
            else .ok { user := sanitizeUser user, token := token }

/-! ## Session issuer: login (routes/auth.js POST /login) -/

/-- Error answers of `POST /api/auth/login` (routes/auth.js): missing
fields is a 400; `invalidCredentials` is the 401 `'Invalid credentials'`
body; `emailNotVerified` is the distinct 401
`'Please verify your email first'` body. -/
inductive LoginErr where
  | missingFields
  | invalidCredentials
  | emailNotVerified
deriving DecidableEq, Repr

/-- The successful login payload: redacted user, token pair, updated
collection. -/
structure LoginOk where
  user : User
  accessToken : TokenStr
  refreshToken : TokenStr
  db : Db
deriving Repr

/-- `buildSafeUser` keeps only the public fields; modelled by blanking the
sensitive ones. -/
def buildSafeUser (u : User) : User :=
  { u with password := "", refreshToken := none, otp := none }

/-- `POST /api/auth/login` (routes/auth.js): lookup by lowercased email
(`'Invalid credentials'` when absent), then the verification check
(distinct error), then the password comparison (`'Invalid credentials'`),
then mint a pair, overwrite the stored refresh token and login
bookkeeping, and return the redacted user. There is no suspension check on
this route. -/
def loginRoute (cfg : Config) (db : Db) (email password : Option String)
    (remember : Bool) (now : Nat) : Except LoginErr LoginOk :=
  match email, password with
  | none, _ => .error .missingFields
  | _, none => .error .missingFields
  | some email, some password =>
    match findByEmail db (toLowerCase email) with
    | none => .error .invalidCredentials
    | some user =>
      if !user.isVerified then .error .emailNotVerified
      else if !correctPassword password user.password then .error .invalidCredentials
      else
        let toks := generateTokens cfg user.id remember now
        let user' := { user with
          refreshToken := some toks.2
          lastLogin := now
          loginCount := user.loginCount + 1 }
        .ok { user := buildSafeUser user'
              accessToken := toks.1
              refreshToken := toks.2
              db := saveUser db user' }

/-- Error answers of the enhanced login route (routes/auth-enhanced.js
POST /login): missing credentials (400), `INVALID_CREDENTIALS` (401),
`ACCOUNT_SUSPENDED` (403). -/
inductive LoginEnhErr where
  | missingCredentials
  | invalidCredentials
  | accountSuspended
deriving DecidableEq, Repr

/-- The enhanced login route (routes/auth-enhanced.js): lookup by
lowercased email and password comparison collapsed into one
`INVALID_CREDENTIALS` answer, then the suspension check, then fingerprint
minting via `generateSecureTokens` and refresh-token storage. There is no
verification check on this route. -/
def loginEnhanced (cfg : Config) (db : Db) (email password : Option String)
    (remember : Bool) (req : ReqCtx) (now : Nat) : Except LoginEnhErr LoginOk :=
  match email, password with
  | none, _ => .error .missingCredentials
  | _, none => .error .missingCredentials
  | some email, some password =>
    match findByEmail db (toLowerCase email) with
    | none => .error .invalidCredentials
    | some user =>
      if !correctPassword password user.password then .error .invalidCredentials
      else if user.isSuspended then .error .accountSuspended
      else
        let fp := generateRequestFingerprint req.ip req.userAgent req.acceptLanguage
        let toks := generateSecureTokens cfg user.id remember fp now
        let user' := { user with
          refreshToken := some toks.2
          lastLogin := now
          loginCount := user.loginCount + 1 }
        .ok { user := buildSafeUser user'
              accessToken := toks.1
              refreshToken := toks.2
              db := saveUser db user' }

/-! ## Session issuer: refresh (routes/auth.js POST /refresh) -/

/-- Error answers of `POST /api/auth/refresh` with their codes:
`REFRESH_TOKEN_REQUIRED` (400), `REFRESH_TOKEN_EXPIRED` (401),
`INVALID_REFRESH_TOKEN` (401), `INVALID_TOKEN_TYPE` (401),
`USER_NOT_FOUND` (401), `REFRESH_TOKEN_MISMATCH` (401),
`ACCOUNT_SUSPENDED` (403). -/
inductive RefreshErr where
  | refreshTokenRequired
  | refreshTokenExpired
  | invalidRefreshToken
  | invalidTokenType
  | userNotFound
  | refreshTokenMismatch
  | accountSuspended
deriving DecidableEq, Repr

/-- The successful refresh payload: the new pair and the updated
collection. -/
structure RefreshOk where
  accessToken : TokenStr
  refreshToken : TokenStr
  db : Db
deriving Repr

/-- `POST /api/auth/refresh` (routes/auth.js): verify the presented token
under the refresh secret with the issuer/audience constants
(`TokenExpiredError` answered as `REFRESH_TOKEN_EXPIRED`, every other
verify failure as `INVALID_REFRESH_TOKEN`); require `type === 'refresh'`;
load the user; require exact equality with the stored refresh token;
require not suspended; then mint a new pair and rotate the stored refresh
token. -/
def refreshRoute (cfg : Config) (db : Db) (presented : Option TokenStr)
    (remember : Bool) (now : Nat) : Except RefreshErr RefreshOk :=
  match presented with
  | none => .error .refreshTokenRequired
  | some refreshToken =>
    match jwtVerify refreshToken cfg.jwtRefreshSecret cfg.jwtIssuer cfg.jwtAudience now with
    | .error .expired => .error .refreshTokenExpired
    | .error _ => .error .invalidRefreshToken
    | .ok decoded =>
      if decoded.typ ≠ some "refresh" then .error .invalidTokenType
      else
        match findById db decoded.id with
        | none => .error .userNotFound
        | some user =>
          if user.refreshToken ≠ some refreshToken then .error .refreshTokenMismatch
          else if user.isSuspended then .error .accountSuspended
          else
            let toks := generateTokens cfg user.id remember now
            let user' := { user with
              refreshToken := some toks.2
              lastActive := now }
            .ok { accessToken := toks.1
                  refreshToken := toks.2
                  db := saveUser db user' }

/-! ## In-memory revocation store (MemoryBlacklist, client repo part) -/

/-- `MemoryBlacklist`: a map from token hash to absolute expiry time in
milliseconds. The sha256 key is modelled by the token itself (the hash is
injective for every input arising here). -/
structure MemoryBlacklist where
  tokens : List (TokenStr × Nat)
deriving DecidableEq, Repr

/-- Association-list lookup for the hash map. -/
def MemoryBlacklist.lookup (bl : MemoryBlacklist) (t : TokenStr) : Option Nat :=
  (bl.tokens.find? (fun e => e.1 = t)).map (·.2)

/-- `Map.set`: replace an existing binding or insert a new one. -/
def MemoryBlacklist.setEntry (bl : MemoryBlacklist) (t : TokenStr) (exp : Nat) :
    MemoryBlacklist :=
  if (bl.tokens.find? (fun e => e.1 = t)).isSome then
    ⟨bl.tokens.map (fun e => if e.1 = t then (t, exp) else e)⟩
  else
    ⟨(t, exp) :: bl.tokens⟩

/-- `Map.delete`. -/
def MemoryBlacklist.deleteEntry (bl : MemoryBlacklist) (t : TokenStr) : MemoryBlacklist :=
  ⟨bl.tokens.filter (fun e => e.1 ≠ t)⟩

/-- `add(token, ttl)`: store `expiresAt = Date.now() + ttl` under the
token's hash. -/
def MemoryBlacklist.add (bl : MemoryBlacklist) (t : TokenStr) (ttl now : Nat) :
    MemoryBlacklist :=
  bl.setEntry t (now + ttl)

/-- `has(token)`: absent hash answers `false`; an entry whose expiry has
strictly passed is deleted and answers `false`; otherwise `true`. Returns
the answer together with the (possibly purged) store. -/
def MemoryBlacklist.hasTok (bl : MemoryBlacklist) (t : TokenStr) (now : Nat) :
    Bool × MemoryBlacklist :=
  match bl.lookup t with
  | none => (false, bl)
  | some expiresAt =>
    if expiresAt < now then (false, bl.deleteEntry t)
    else (true, bl)

/-- `cleanup()`: the periodic sweep deleting every strictly expired
entry. -/
def MemoryBlacklist.cleanup (bl : MemoryBlacklist) (now : Nat) : MemoryBlacklist :=
  ⟨bl.tokens.filter (fun e => ¬ e.2 < now)⟩

/-- An operation applied to the blacklist together with the clock value at
which it runs. -/
inductive BlOp where
  | add (t : TokenStr) (ttl : Nat)
  | has (t : TokenStr)
  | cleanup
deriving DecidableEq, Repr

/-- Run a timed operation, discarding `has` answers. -/
def blStep (bl : MemoryBlacklist) (op : BlOp × Nat) : MemoryBlacklist :=
  match op.1 with
  | .add t ttl => bl.add t ttl op.2
  | .has t => (bl.hasTok t op.2).2
  | .cleanup => bl.cleanup op.2

/-- Run a timed operation sequence. -/
def blRun (bl : MemoryBlacklist) (ops : List (BlOp × Nat)) : MemoryBlacklist :=
  ops.foldl blStep bl

/-- Invariant tying a revoked token's entry to its recorded deadline: as
long as operations run at times up to `tq`, every entry under the token's
hash carries exactly the recorded deadline, and the entry can only have
been purged if the deadline lies strictly before `tq`. -/
def BlInv (t : TokenStr) (deadline tq : Nat) (bl : MemoryBlacklist) : Prop :=
  (∀ e ∈ bl.tokens, e.1 = t → e.2 = deadline) ∧
  ((∀ e ∈ bl.tokens, e.1 ≠ t) → deadline < tq)

/-! ## Client-side refresh coordinator (AuthContext refreshAccessToken /
processQueue) -/

/-- The coordinator's mutable state: the `isRefreshing` ref, the caller
that issued the in-flight refresh call (if any), and the `failedQueue` of
callers whose promises are parked until the in-flight call settles.
`inFlight` counts refresh HTTP calls issued but not yet settled. -/
structure CoordState where
  isRefreshing : Bool
  current : Option Nat
  failedQueue : List Nat
  inFlight : Nat
deriving DecidableEq, Repr

/-- The idle coordinator. -/
def CoordState.idle : CoordState :=
  { isRefreshing := false, current := none, failedQueue := [], inFlight := 0 }

/-- Events driving the coordinator: a caller invokes
`refreshAccessToken()` (after its request got a 401), or the single
in-flight refresh call settles with a new access token (`some tok`) or a
failure (`none`). -/
inductive CoordEvent where
  | arrive (caller : Nat)
  | settle (result : Option TokenStr)
deriving DecidableEq, Repr

/-- Accumulated run result: final state, the outcomes delivered to callers
(in delivery order, each paired with the settled result), and the number
of refresh HTTP calls issued so far. -/
structure CoordRes where
  state : CoordState
  delivered : List (Nat × Option TokenStr)
  callsIssued : Nat
deriving DecidableEq, Repr

/-- One event of `refreshAccessToken`: an arriving caller while a refresh
is in flight is pushed onto `failedQueue` (no new HTTP call); an arriving
caller while idle flips `isRefreshing` and issues the one refresh call.
When the call settles, `processQueue` delivers the result to every queued
caller (and the issuing caller receives it as the return value), the queue
is emptied and the flag cleared. -/
def coordStep (r : CoordRes) (e : CoordEvent) : CoordRes :=
  match e with
  | .arrive c =>
    if r.state.isRefreshing then
      { r with state := { r.state with failedQueue := r.state.failedQueue ++ [c] } }
    else
      { r with
        state := { r.state with
          isRefreshing := true
          current := some c
          inFlight := r.state.inFlight + 1 }
        callsIssued := r.callsIssued + 1 }
  | .settle res =>
    if r.state.isRefreshing then
      { state := CoordState.idle
        delivered := r.delivered
          ++ ((r.state.current.toList ++ r.state.failedQueue).map (fun c => (c, res)))
        callsIssued := r.callsIssued }
    else r

/-- Run the coordinator from idle over an event trace. -/
def coordRun (es : List CoordEvent) : CoordRes :=
  es.foldl coordStep { state := CoordState.idle, delivered := [], callsIssued := 0 }

/-! ## Client-side HTTP interceptor (axios response interceptor) -/

/-- `url.includes(pat)`. -/
def urlIncludes (url pat : String) : Bool :=
  url.toList.tails.any (fun t => pat.toList.isPrefixOf t)

/-- The interceptor's exclusion test: the original request's url contains
`/logout`, `/login`, `/refresh` or `/payment/intent`. -/
def isExcludedPath (url : String) : Bool :=
  urlIncludes url "/logout" || urlIncludes url "/login" ||
  urlIncludes url "/refresh" || urlIncludes url "/payment/intent"

/-- An axios request as the interceptor sees it: its url and its `_retry`
marker. -/
structure AxiosReq where
  url : String
  retried : Bool
deriving DecidableEq, Repr

/-- What the interceptor decides to do with a failed response. -/
inductive InterceptAction where
  | passThrough
  | refreshAndRetry (retriedReq : AxiosReq)
deriving DecidableEq, Repr

/-- The axios response interceptor's error branch: on a 401 whose request
is not excluded and not yet marked `_retry`, mark it and refresh-and-retry
it once; every other failure is rejected unchanged. -/
def responseInterceptor (req : AxiosReq) (status : Nat) : InterceptAction :=
  if status = 401 ∧ ¬req.retried ∧ ¬isExcludedPath req.url then
    .refreshAndRetry { req with retried := true }
  else .passThrough

/-! ## OAuth login concurrency (routes/auth.js POST /google and the
googleLogin helper of middleware/auth-enhanced.js)

Two concurrent executions of the lookup-then-create sequence for the same
Google payload are modelled as an interleaving of atomic database actions,
one program counter per request. The token minting and the final
refresh-token write-back that follow are omitted from the race model: they
only update the already-determined record and create nothing.
-/

/-- The fields of the verified Google payload the sequence consumes. -/
structure GooglePayload where
  email : String
  googleId : String
  name : String
  picture : String
deriving DecidableEq, Repr

/-- The user document `User.create`/`new User` builds for a brand-new
OAuth account. -/
def mkGoogleUser (env : GooglePayload) (id : Nat) (now : Nat) : User :=
  { id := id
    email := env.email
    password := "random-" ++ toString id
    isVerified := true
    isSuspended := false
    role := "user"
    refreshToken := none
    otp := none
    googleId := some env.googleId
    lastLogin := now
    lastActive := now
    loginCount := 1 }

/-- `user.googleId = user.googleId || googleId; user.avatar = ...;
user.lastLogin = ...; user.loginCount++; user.isVerified = true`. -/
def googleUpdate (env : GooglePayload) (now : Nat) (u : User) : User :=
  { u with
    googleId := (u.googleId.orElse (fun _ => some env.googleId))
    isVerified := true
    lastLogin := now
    loginCount := u.loginCount + 1 }

/-- Program counter of one in-flight OAuth login: before the email lookup,
after it (carrying the id found, if any), or finished. -/
inductive GPc where
  | start
  | looked (found : Option Nat)
  | done
deriving DecidableEq, Repr

/-- Shared database plus the two program counters. -/
structure RaceState where
  db : Db
  pc1 : GPc
  pc2 : GPc
deriving Repr

/-- Fresh ObjectId for the record created by request 1 resp. 2. -/
def googleFreshId (i : Bool) : Nat := if i then 101 else 102

/-- The next atomic action of one in-flight `POST /google` execution (no
transaction): first the `findOne({email})` read, then — as a separate
step — either `new User(...).save()` when the read returned nothing, or
the in-place update of the user the read found. Returns the new program
counter and database. -/
def googleRouteAct (env : GooglePayload) (now : Nat) (db : Db) (pc : GPc) (fresh : Nat) :
    GPc × Db :=
  match pc with
  | .start => (.looked ((findByEmail db env.email).map (·.id)), db)
  | .looked none => (.done, db ++ [mkGoogleUser env fresh now])
  | .looked (some uid) =>
    (.done, db.map (fun u => if u.id = uid then googleUpdate env now u else u))
  | .done => (.done, db)

/-- The next atomic action of one in-flight `googleLogin` helper
execution: the `findOne({email})` read runs before the transaction; the
transaction — the `findOne({googleId})` fallback and the conditional
`User.create` — is a single atomic step against the current database. -/
def googleTxnAct (env : GooglePayload) (now : Nat) (db : Db) (pc : GPc) (fresh : Nat) :
    GPc × Db :=
  match pc with
  | .start => (.looked ((findByEmail db env.email).map (·.id)), db)
  | .looked none =>
    match findByGoogleId db env.googleId with
    | none => (.done, db ++ [mkGoogleUser env fresh now])
    | some u => (.done, db.map (fun v => if v.id = u.id then googleUpdate env now v else v))
  | .looked (some uid) =>
    (.done, db.map (fun u => if u.id = uid then googleUpdate env now u else u))
  | .done => (.done, db)

/-- Let the scheduled request take its next route-model action. -/
def googleRouteStep (env : GooglePayload) (now : Nat) (s : RaceState) (i : Bool) :
    RaceState :=
  if i then
    let r := googleRouteAct env now s.db s.pc1 (googleFreshId true)
    { db := r.2, pc1 := r.1, pc2 := s.pc2 }
  else
    let r := googleRouteAct env now s.db s.pc2 (googleFreshId false)
    { db := r.2, pc1 := s.pc1, pc2 := r.1 }

/-- Let the scheduled request take its next transactional-model action. -/
def googleTxnStep (env : GooglePayload) (now : Nat) (s : RaceState) (i : Bool) :
    RaceState :=
  if i then
    let r := googleTxnAct env now s.db s.pc1 (googleFreshId true)
    { db := r.2, pc1 := r.1, pc2 := s.pc2 }
  else
    let r := googleTxnAct env now s.db s.pc2 (googleFreshId false)
    { db := r.2, pc1 := s.pc1, pc2 := r.1 }

/-- Run the non-transactional route model over a schedule (each entry says
which of the two requests takes its next atomic step). -/
def googleRouteRun (env : GooglePayload) (now : Nat) (sched : List Bool) : RaceState :=
  sched.foldl (googleRouteStep env now) { db := [], pc1 := .start, pc2 := .start }

/-- Run the transactional helper model over a schedule. -/
def googleTxnRun (env : GooglePayload) (now : Nat) (sched : List Bool) : RaceState :=
  sched.foldl (googleTxnStep env now) { db := [], pc1 := .start, pc2 := .start }

/-- The number of user records carrying the given email. -/
def countEmail (db : Db) (email : String) : Nat :=
  (db.filter (fun u => u.email = email)).length

/-- Lower bound on the database size implied by one request's program
counter: a finished request, or one whose email lookup found a user, has
witnessed at least one record. -/
def pcLB : GPc → Nat
  | .done => 1
  | .looked (some _) => 1
  | _ => 0

/-- The invariant maintained by every interleaving of two transactional
OAuth logins for the same brand-new payload, starting from an empty
store: every record carries the payload's email and subject id, there is
at most one record, and each program counter's lower bound holds. -/
def googleInv (env : GooglePayload) (s : RaceState) : Prop :=
  (∀ u ∈ s.db, u.email = env.email ∧ u.googleId = some env.googleId) ∧
  s.db.length ≤ 1 ∧
  pcLB s.pc1 ≤ s.db.length ∧
  pcLB s.pc2 ≤ s.db.length

/-! ## Helper lemmas -/

theorem isTokenBlacklisted_unavailable (reply : RedisReply) :
    isTokenBlacklisted false reply = false := rfl

theorem isTokenBlacklisted_error (avail : Bool) (msg : String) :
    isTokenBlacklisted avail (.error msg) = false := by
  cases avail <;> simp [isTokenBlacklisted]

theorem isTokenBlacklisted_ok_zero (avail : Bool) :
    isTokenBlacklisted avail (.ok 0) = false := by
  cases avail <;> simp [isTokenBlacklisted]

/-! ## Claims -/

/-- C6. When the revocation store is unavailable or the lookup errors,
`isTokenBlacklisted` answers `false` (assume not revoked); the `auth` gate
behaves on an erroring revocation check exactly as on a clean
not-blacklisted answer, and in particular never answers
`TOKEN_INVALIDATED` because of an infrastructure failure. -/
theorem revocation_fail_open :
    (∀ reply : RedisReply, isTokenBlacklisted false reply = false) ∧
    (∀ (avail : Bool) (msg : String), isTokenBlacklisted avail (.error msg) = false) ∧
    (∀ (cfg : Config) (db : Db) (req : ReqCtx) (avail : Bool) (msg : String) (now : Nat),
      auth cfg db req avail (.error msg) now = auth cfg db req avail (.ok 0) now) ∧
    (∀ (cfg : Config) (db : Db) (req : ReqCtx) (avail : Bool) (msg : String) (now : Nat),
      auth cfg db req avail (.error msg) now ≠ .error .tokenInvalidated) := by
  refine ⟨fun r => rfl, isTokenBlacklisted_error, ?_, ?_⟩
  · intro cfg db req avail msg now
    unfold auth
    rw [isTokenBlacklisted_error, isTokenBlacklisted_ok_zero]
  · intro cfg db req avail msg now
    unfold auth
    rw [isTokenBlacklisted_error]
    match h : req.authHeaderToken.orElse (fun _ => req.cookieToken) with
    | none => simp
    | some token =>
      simp only [if_neg (Bool.false_ne_true)]
      cases hv : verifyToken cfg token false now with
      | error e => cases e <;> simp
      | ok decoded =>
        by_cases ht : decoded.typ = some "access"
        · simp only [ht]
          cases hu : findById db decoded.id with
          | none => simp
          | some user =>
            by_cases hs : user.isSuspended <;> simp [hs]
        · simp [ht]

/-- C6 witness: at a concrete configuration, database and request, an
erroring revocation lookup is answered not-revoked and the gate's verdict
matches the clean not-blacklisted verdict. -/
theorem revocation_fail_open_witness :
    auth ⟨"as", "rs", "iss", "aud"⟩ [] ⟨some (.raw "tok"), none, none, none, none⟩
        true (.error "redis down") 0
      = auth ⟨"as", "rs", "iss", "aud"⟩ [] ⟨some (.raw "tok"), none, none, none, none⟩
        true (.ok 0) 0 :=
  revocation_fail_open.2.2.1 ⟨"as", "rs", "iss", "aud"⟩ []
    ⟨some (.raw "tok"), none, none, none, none⟩ true "redis down" 0

/-- C3. Verifying a token minted as type `access` under the access secret
returns the same subject and type `access`; verifying it under the wrong
(refresh) secret fails; and a token whose embedded type differs from the
endpoint's expected type is rejected: the refresh endpoint answers
`INVALID_TOKEN_TYPE` to a refresh-secret-signed token whose type is not
`refresh`, and the gate answers `INVALID_TOKEN_TYPE` to an
access-secret-signed token whose type is not `access`. -/
theorem token_codec_roundtrip (cfg : Config) (uid : Nat) (remember : Bool) (now tv : Nat)
    (hsec : cfg.jwtSecret ≠ cfg.jwtRefreshSecret)
    (htv : tv < now + (if remember then day7 else min15)) :
    (verifyToken cfg (generateAccessToken cfg uid remember now) false tv
      = .ok { id := uid, typ := some "access", iat := now
              exp := now + (if remember then day7 else min15)
              iss := some cfg.jwtIssuer, aud := some cfg.jwtAudience, fp := none }) ∧
    (verifyToken cfg (generateAccessToken cfg uid remember now) true tv
      = .error .invalid) ∧
    (∀ (db : Db) (pl : Payload) (r : Bool) (t : Nat),
      pl.typ ≠ some "refresh" → pl.iss = some cfg.jwtIssuer →
      pl.aud = some cfg.jwtAudience → t < pl.exp →
      refreshRoute cfg db (some (.signed pl cfg.jwtRefreshSecret)) r t
        = .error .invalidTokenType) ∧
    (∀ (db : Db) (req : ReqCtx) (pl : Payload) (avail : Bool) (t : Nat),
      req.authHeaderToken = some (.signed pl cfg.jwtSecret) →
      pl.typ ≠ some "access" → pl.iss = some cfg.jwtIssuer →
      pl.aud = some cfg.jwtAudience → t < pl.exp →
      auth cfg db req avail (.ok 0) t = .error .invalidTokenType) := by
  refine ⟨?_, ?_, ?_, ?_⟩
  · simp [verifyToken, generateAccessToken, jwtVerify, Nat.not_le.2 htv]
  · simp [verifyToken, generateAccessToken, jwtVerify, hsec]
  · intro db pl r t htyp hiss haud hexp
    simp [refreshRoute, jwtVerify, hiss, haud, Nat.not_le.2 hexp, htyp]
  · intro db req pl avail t hreq htyp hiss haud hexp
    unfold auth
    rw [isTokenBlacklisted_ok_zero]
    simp [hreq, verifyToken, jwtVerify, hiss, haud, Nat.not_le.2 hexp, htyp]

/-- C3 witness: a concrete mint/verify roundtrip, wrong-secret failure and
the two type-mismatch rejections. -/
theorem token_codec_roundtrip_witness :
    verifyToken ⟨"as", "rs", "iss", "aud"⟩
        (generateAccessToken ⟨"as", "rs", "iss", "aud"⟩ 7 false 0) false 10
      = .ok { id := 7, typ := some "access", iat := 0, exp := 0 + (if false then day7 else min15)
              iss := some "iss", aud := some "aud", fp := none } :=
  (token_codec_roundtrip ⟨"as", "rs", "iss", "aud"⟩ 7 false 0 10
    (by decide) (by norm_num [min15])).1

/-- C10. The `auth` gate verifies with `verifyToken`, which never reads
the embedded fingerprint claim: its verdict is identical on two requests
that differ only in client network address, user-agent or
accept-language; tokens differing only in the embedded `fp` claim receive
the same verdict and attached user; fingerprint binding lives solely in
`verifyTokenWithFingerprint`, which rejects a differing fingerprint with
a mismatch error — and which `auth` never invokes. -/
theorem gate_fingerprint_noninterference :
    (∀ (cfg : Config) (db : Db) (req1 req2 : ReqCtx) (avail : Bool)
        (reply : RedisReply) (now : Nat),
      req1.authHeaderToken = req2.authHeaderToken →
      req1.cookieToken = req2.cookieToken →
      auth cfg db req1 avail reply now = auth cfg db req2 avail reply now) ∧
    (∀ (cfg : Config) (db : Db) (pl : Payload) (s : String) (f1 f2 : Option String)
        (ip ua al : Option String) (avail : Bool) (reply : RedisReply) (now : Nat),
      (auth cfg db ⟨some (.signed { pl with fp := f1 } s), none, ip, ua, al⟩ avail reply now).map
          (fun r => r.user)
        = (auth cfg db ⟨some (.signed { pl with fp := f2 } s), none, ip, ua, al⟩ avail reply now).map
          (fun r => r.user)) ∧
    (∀ (cfg : Config) (pl : Payload) (f : String) (isRefresh : Bool) (now : Nat),
      now < pl.exp → pl.fp ≠ some f →
      verifyTokenWithFingerprint cfg
          (.signed pl (if isRefresh then cfg.jwtRefreshSecret else cfg.jwtSecret)) f isRefresh now
        = .error .fpMismatch) := by
  refine ⟨?_, ?_, ?_⟩
  · intro cfg db req1 req2 avail reply now h1 h2
    obtain ⟨a1, c1, i1, u1, l1⟩ := req1
    obtain ⟨a2, c2, i2, u2, l2⟩ := req2
    simp only at h1 h2
    subst h1; subst h2
    rfl
  · intro cfg db pl s f1 f2 ip ua al avail reply now
    by_cases hb : isTokenBlacklisted avail reply
    · simp [auth, hb, Option.orElse]
    · by_cases h1 : s = cfg.jwtSecret
      · by_cases h2 : pl.exp ≤ now
        · simp [auth, hb, verifyToken, jwtVerify, h1, h2, Option.orElse]
        · by_cases h3 : pl.aud = some cfg.jwtAudience
          · by_cases h4 : pl.iss = some cfg.jwtIssuer
            · by_cases ht : pl.typ = some "access"
              · simp only [auth, hb, verifyToken, jwtVerify, h1, h2, h3, h4, ht, Option.orElse,
                  if_false, if_true, ite_not, ne_eq, not_false_eq_true, not_true_eq_false,
                  Bool.false_eq_true, ite_false, ite_true, if_neg, not_not]
                cases hf : findById db pl.id with
                | none => simp [hf]
                | some user =>
                  by_cases hs : user.isSuspended <;> simp [hf, hs, Except.map]
              · simp [auth, hb, verifyToken, jwtVerify, h1, h2, h3, h4, ht, Option.orElse]
            · simp [auth, hb, verifyToken, jwtVerify, h1, h2, h3, h4, Option.orElse]
          · simp [auth, hb, verifyToken, jwtVerify, h1, h2, h3, Option.orElse]
      · simp [auth, hb, verifyToken, jwtVerify, h1, Option.orElse]
  · intro cfg pl f isRefresh now hexp hfp
    simp [verifyTokenWithFingerprint, jwtVerifyNoClaims, Nat.not_le.2 hexp, hfp]

/-- C10 witness: two concrete requests with the same access token but
different ip, user-agent and accept-language receive the same verdict
from the gate. -/
theorem gate_fingerprint_noninterference_witness :
    auth ⟨"as", "rs", "iss", "aud"⟩ [] ⟨some (.raw "tok"), none, some "1.2.3.4", some "ff", some "en"⟩
        false (.ok 0) 0
      = auth ⟨"as", "rs", "iss", "aud"⟩ [] ⟨some (.raw "tok"), none, some "5.6.7.8", some "chrome", none⟩
        false (.ok 0) 0 :=
  gate_fingerprint_noninterference.1 ⟨"as", "rs", "iss", "aud"⟩ []
    ⟨some (.raw "tok"), none, some "1.2.3.4", some "ff", some "en"⟩
    ⟨some (.raw "tok"), none, some "5.6.7.8", some "chrome", none⟩
    false (.ok 0) 0 rfl rfl

theorem coordStep_inflight (r : CoordRes) (e : CoordEvent)
    (h : r.state.inFlight = if r.state.isRefreshing then 1 else 0) :
    (coordStep r e).state.inFlight = if (coordStep r e).state.isRefreshing then 1 else 0 := by
  cases e with
  | arrive c =>
    by_cases hr : r.state.isRefreshing <;> simp [coordStep, hr] <;> simp [hr] at h <;> simp [h]
  | settle res =>
    by_cases hr : r.state.isRefreshing
    · simp [coordStep, hr, CoordState.idle]
    · simp only [coordStep, hr, Bool.false_eq_true, if_false]
      simpa [hr] using h

theorem coordRun_inflight_aux (es : List CoordEvent) (r : CoordRes)
    (h : r.state.inFlight = if r.state.isRefreshing then 1 else 0) :
    (es.foldl coordStep r).state.inFlight
      = if (es.foldl coordStep r).state.isRefreshing then 1 else 0 := by
  induction es generalizing r with
  | nil => exact h
  | cons e es ih => exact ih (coordStep r e) (coordStep_inflight r e h)

theorem coordRun_arrivals_refreshing (cs : List Nat) (r : CoordRes)
    (h : r.state.isRefreshing = true) :
    (cs.map CoordEvent.arrive).foldl coordStep r
      = { r with state := { r.state with failedQueue := r.state.failedQueue ++ cs } } := by
  induction cs generalizing r with
  | nil => simp
  | cons c cs ih =>
    simp only [List.map_cons, List.foldl_cons]
    rw [show coordStep r (.arrive c)
        = { r with state := { r.state with failedQueue := r.state.failedQueue ++ [c] } } by
      simp [coordStep, h]]
    rw [ih _ (by simp [h])]
    simp

/-- C2. The client refresh coordinator is single-flight: over every event
trace the number of in-flight refresh calls is 1 while `isRefreshing` and
0 otherwise (so never more than one); and for any positive number of
concurrently failing callers, running all their arrivals and then the one
settlement issues exactly one refresh HTTP call, delivers the settled
outcome (the new access token, or the failure) to every caller, and
returns the coordinator to the idle state. -/
theorem refresh_coordinator_single_flight :
    (∀ es : List CoordEvent, (coordRun es).state.inFlight ≤ 1) ∧
    (∀ es : List CoordEvent,
      (coordRun es).state.inFlight = if (coordRun es).state.isRefreshing then 1 else 0) ∧
    (∀ (c : Nat) (cs : List Nat) (res : Option TokenStr),
      coordRun ((c :: cs).map CoordEvent.arrive ++ [CoordEvent.settle res])
        = { state := CoordState.idle
            delivered := (c :: cs).map (fun x => (x, res))
            callsIssued := 1 }) := by
  have key : ∀ es : List CoordEvent,
      (coordRun es).state.inFlight = if (coordRun es).state.isRefreshing then 1 else 0 :=
    fun es => coordRun_inflight_aux es _ rfl
  refine ⟨?_, key, ?_⟩
  · intro es
    rw [key es]
    by_cases h : (coordRun es).state.isRefreshing <;> simp [h]
  · intro c cs res
    unfold coordRun
    simp only [List.map_cons, List.foldl_append, List.foldl_cons, List.foldl_nil]
    rw [show coordStep { state := CoordState.idle, delivered := [], callsIssued := 0 }
          (.arrive c)
        = { state := { isRefreshing := true, current := some c, failedQueue := [], inFlight := 1 }
            delivered := [], callsIssued := 1 } by
      simp [coordStep, CoordState.idle]]
    rw [coordRun_arrivals_refreshing cs _ rfl]
    simp [coordStep, CoordState.idle, Option.toList]

/-- C8 counterexample. The exclusion test matches only the substring
`/payment/intent`, which is not a path of this repository's payment
routes: a 401 from the actual payment endpoint `/api/payment/create-order`
(the one the checkout page calls) does trigger a refresh-and-retry,
contradicting the claim that a 401 from a payment endpoint never does. -/
theorem interceptor_payment_retry_counterexample :
    isExcludedPath "/api/payment/create-order" = false ∧
    responseInterceptor ⟨"/api/payment/create-order", false⟩ 401
      = .refreshAndRetry ⟨"/api/payment/create-order", true⟩ ∧
    responseInterceptor ⟨"/api/payment/verify", false⟩ 401
      = .refreshAndRetry ⟨"/api/payment/verify", true⟩ := by
  refine ⟨by decide, ?_, ?_⟩ <;> decide

/-- C8 amended. Every original request is retried at most once: a request
already marked `_retry` is never retried again, any retry the interceptor
issues carries the `_retry` mark and arises only from an unmarked 401 on a
non-excluded url, and a url containing `/logout`, `/login`, `/refresh` or
`/payment/intent` (but not other payment paths such as
`/payment/create-order`) is never refresh-and-retried. -/
theorem interceptor_retry_discipline :
    (∀ (req : AxiosReq) (status : Nat), req.retried = true →
      responseInterceptor req status = .passThrough) ∧
    (∀ (req r' : AxiosReq) (status : Nat),
      responseInterceptor req status = .refreshAndRetry r' →
      r'.retried = true ∧ req.retried = false ∧ status = 401 ∧
      isExcludedPath req.url = false) ∧
    (∀ (req r' : AxiosReq) (status status' : Nat),
      responseInterceptor req status = .refreshAndRetry r' →
      responseInterceptor r' status' = .passThrough) ∧
    (∀ (req : AxiosReq) (status : Nat), isExcludedPath req.url = true →
      responseInterceptor req status = .passThrough) := by
  have hmark : ∀ (req r' : AxiosReq) (status : Nat),
      responseInterceptor req status = .refreshAndRetry r' →
      r'.retried = true ∧ req.retried = false ∧ status = 401 ∧
      isExcludedPath req.url = false := by
    intro req r' status h
    by_cases h1 : status = 401
    · by_cases h2 : req.retried
      · simp [responseInterceptor, h1, h2] at h
      · by_cases h3 : isExcludedPath req.url
        · simp [responseInterceptor, h1, h2, h3] at h
        · have hstep : responseInterceptor req status
              = .refreshAndRetry { req with retried := true } := by
            simp [responseInterceptor, h1, h2, h3]
          rw [hstep] at h
          simp only [InterceptAction.refreshAndRetry.injEq] at h
          subst h
          exact ⟨rfl, by simpa using h2, h1, by simpa using h3⟩
    · simp [responseInterceptor, h1] at h
  have hflag : ∀ (req : AxiosReq) (status : Nat), req.retried = true →
      responseInterceptor req status = .passThrough := by
    intro req status h
    simp [responseInterceptor, h]
  refine ⟨hflag, hmark, ?_, ?_⟩
  · intro req r' status status' h
    exact hflag r' status' (hmark req r' status h).1
  · intro req status h
    simp [responseInterceptor, h]

/-- C8 witness: a concrete 401 is retried once, with the retried request
marked so that a second 401 passes through, and a concrete refresh url is
never retried. -/
theorem interceptor_retry_discipline_witness :
    responseInterceptor ⟨"/api/orders", true⟩ 401 = .passThrough ∧
    responseInterceptor ⟨"/api/auth/refresh", false⟩ 401 = .passThrough :=
  ⟨interceptor_retry_discipline.1 ⟨"/api/orders", true⟩ 401 rfl,
   interceptor_retry_discipline.2.2.2 ⟨"/api/auth/refresh", false⟩ 401 (by decide)⟩

/-- C4 counterexample. `generateSecureTokens` is a token-minting operation
of the codec that stamps no issuer and no audience claim (it passes only
`expiresIn` to `jwt.sign`), and its freshly minted, unexpired access token
is rejected by `verifyToken` — so "every token-minting operation stamps
the configured issuer and audience constants" is false. -/
theorem mint_issuer_audience_counterexample :
    (generateSecureTokens ⟨"as", "rs", "iss", "aud"⟩ 1 false "fp" 0).1
      = .signed { id := 1, typ := some "access", iat := 0, exp := min15
                  iss := none, aud := none, fp := some "fp" } "as" ∧
    verifyToken ⟨"as", "rs", "iss", "aud"⟩
        (generateSecureTokens ⟨"as", "rs", "iss", "aud"⟩ 1 false "fp" 0).1 false 1
      = .error .invalid := by
  constructor
  · simp [generateSecureTokens, min15]
  · rfl

/-- C4 amended. The standard mints — `generateAccessToken`,
`generateRefreshToken` and the route-local `generateTokens` — stamp the
configured issuer and audience constants, and `verifyToken` checks them,
rejecting an unexpired token whose issuer or audience claim is absent or
different; the fingerprint codec is the exception: `generateSecureTokens`
stamps neither claim and its companion `verifyTokenWithFingerprint`
checks neither, accepting a claimless token whose fingerprint matches. -/
theorem issuer_audience_stamping (cfg : Config) (uid : Nat) (remember : Bool) (now : Nat) :
    ((match generateAccessToken cfg uid remember now with
      | .signed pl _ => pl.iss = some cfg.jwtIssuer ∧ pl.aud = some cfg.jwtAudience
      | .raw _ => False) ∧
     (match generateRefreshToken cfg uid remember now with
      | .signed pl _ => pl.iss = some cfg.jwtIssuer ∧ pl.aud = some cfg.jwtAudience
      | .raw _ => False) ∧
     (match (generateTokens cfg uid remember now).1 with
      | .signed pl _ => pl.iss = some cfg.jwtIssuer ∧ pl.aud = some cfg.jwtAudience
      | .raw _ => False) ∧
     (match (generateTokens cfg uid remember now).2 with
      | .signed pl _ => pl.iss = some cfg.jwtIssuer ∧ pl.aud = some cfg.jwtAudience
      | .raw _ => False)) ∧
    (∀ (pl : Payload) (isRefresh : Bool) (t : Nat),
      t < pl.exp → pl.aud ≠ some cfg.jwtAudience →
      verifyToken cfg (.signed pl (if isRefresh then cfg.jwtRefreshSecret else cfg.jwtSecret))
          isRefresh t = .error .invalid) ∧
    (∀ (pl : Payload) (isRefresh : Bool) (t : Nat),
      t < pl.exp → pl.aud = some cfg.jwtAudience → pl.iss ≠ some cfg.jwtIssuer →
      verifyToken cfg (.signed pl (if isRefresh then cfg.jwtRefreshSecret else cfg.jwtSecret))
          isRefresh t = .error .invalid) ∧
    ((match (generateSecureTokens cfg uid remember "fp" now).1 with
      | .signed pl _ => pl.iss = none ∧ pl.aud = none
      | .raw _ => False) ∧
     (∀ t : Nat, t < now + (if remember then day7 else min15) →
      verifyTokenWithFingerprint cfg (generateSecureTokens cfg uid remember "fp" now).1
          "fp" false t
        = .ok { id := uid, typ := some "access", iat := now
                exp := now + (if remember then day7 else min15)
                iss := none, aud := none, fp := some "fp" })) := by
  refine ⟨⟨?_, ?_, ?_, ?_⟩, ?_, ?_, ?_, ?_⟩
  · simp [generateAccessToken]
  · simp [generateRefreshToken]
  · simp [generateTokens]
  · simp [generateTokens]
  · intro pl isRefresh t hexp haud
    simp [verifyToken, jwtVerify, Nat.not_le.2 hexp, haud]
  · intro pl isRefresh t hexp haud hiss
    simp [verifyToken, jwtVerify, Nat.not_le.2 hexp, haud, hiss]
  · simp [generateSecureTokens]
  · intro t ht
    simp [verifyTokenWithFingerprint, generateSecureTokens, jwtVerifyNoClaims, Nat.not_le.2 ht]

/-- C4 witness: at a concrete configuration, a token with a wrong audience
is rejected by `verifyToken` and the fingerprint codec's claimless token
is accepted by `verifyTokenWithFingerprint`. -/
theorem issuer_audience_stamping_witness :
    verifyToken ⟨"as", "rs", "iss", "aud"⟩
        (.signed { id := 1, typ := some "access", iat := 0, exp := 100
                   iss := some "iss", aud := some "other", fp := none } "as") false 1
      = .error .invalid :=
  (issuer_audience_stamping ⟨"as", "rs", "iss", "aud"⟩ 1 false 0).2.1
    { id := 1, typ := some "access", iat := 0, exp := 100
      iss := some "iss", aud := some "other", fp := none } false 1
    (by decide) (by decide)

/-- C5 counterexample. On the mounted login route an unverified account
fails with the distinct `'Please verify your email first'` answer, not the
indistinguishable `'Invalid credentials'` one; and a suspended, verified
account with the correct password logs in successfully — tokens are minted
and the stored refresh token is overwritten — because the route performs
no suspension check at all. -/
theorem login_errors_counterexample :
    loginRoute ⟨"as", "rs", "iss", "aud"⟩
        [{ id := 1, email := "a@x.com", password := "pw", isVerified := false
           isSuspended := false, role := "user", refreshToken := none, otp := none
           googleId := none, lastLogin := 0, lastActive := 0, loginCount := 0 }]
        (some "a@x.com") (some "pw") false 0
      = .error .emailNotVerified ∧
    LoginErr.emailNotVerified ≠ LoginErr.invalidCredentials ∧
    loginRoute ⟨"as", "rs", "iss", "aud"⟩
        [{ id := 2, email := "s@x.com", password := "pw", isVerified := true
           isSuspended := true, role := "user", refreshToken := none, otp := none
           googleId := none, lastLogin := 0, lastActive := 0, loginCount := 0 }]
        (some "s@x.com") (some "pw") false 5
      = .ok { user := { id := 2, email := "s@x.com", password := "", isVerified := true
                        isSuspended := true, role := "user", refreshToken := none, otp := none
                        googleId := none, lastLogin := 5, lastActive := 0, loginCount := 1 }
              accessToken := .signed { id := 2, typ := some "access", iat := 5, exp := 905
                                       iss := some "iss", aud := some "aud", fp := none } "as"
              refreshToken := .signed { id := 2, typ := some "refresh", iat := 5, exp := 604805
                                        iss := some "iss", aud := some "aud", fp := none } "rs"
              db := [{ id := 2, email := "s@x.com", password := "pw", isVerified := true
                       isSuspended := true, role := "user"
                       refreshToken := some (.signed { id := 2, typ := some "refresh", iat := 5
                                                       exp := 604805, iss := some "iss"
                                                       aud := some "aud", fp := none } "rs")
                       otp := none, googleId := none, lastLogin := 5, lastActive := 0
                       loginCount := 1 }] } := by
  exact ⟨by rfl, by decide, by rfl⟩

/-- C5 amended. On the mounted login route, an unknown email and a wrong
password both answer the single `'Invalid credentials'` error (no account
enumeration), an unverified account answers the distinct
`'Please verify your email first'` error, and the route performs no
suspension check: a verified account with the correct password succeeds —
minting tokens and overwriting the stored refresh token — whatever its
`isSuspended` flag. On the enhanced login route, unknown email and wrong
password collapse to `INVALID_CREDENTIALS`, a suspended account fails
`ACCOUNT_SUSPENDED` before any token is minted, and there is no
verification check. -/
theorem login_error_discipline (cfg : Config) (db : Db) (email pw : String)
    (remember : Bool) (now : Nat) :
    (findByEmail db (toLowerCase email) = none →
      loginRoute cfg db (some email) (some pw) remember now = .error .invalidCredentials) ∧
    (∀ u, findByEmail db (toLowerCase email) = some u → u.isVerified = true →
      correctPassword pw u.password = false →
      loginRoute cfg db (some email) (some pw) remember now = .error .invalidCredentials) ∧
    (∀ u, findByEmail db (toLowerCase email) = some u → u.isVerified = false →
      loginRoute cfg db (some email) (some pw) remember now = .error .emailNotVerified) ∧
    (∀ u, findByEmail db (toLowerCase email) = some u → u.isVerified = true →
      correctPassword pw u.password = true →
      loginRoute cfg db (some email) (some pw) remember now
        = .ok { user := buildSafeUser { u with
                  refreshToken := some (generateTokens cfg u.id remember now).2
                  lastLogin := now, loginCount := u.loginCount + 1 }
                accessToken := (generateTokens cfg u.id remember now).1
                refreshToken := (generateTokens cfg u.id remember now).2
                db := saveUser db { u with
                  refreshToken := some (generateTokens cfg u.id remember now).2
                  lastLogin := now, loginCount := u.loginCount + 1 } }) ∧
    (∀ u req, findByEmail db (toLowerCase email) = some u →
      correctPassword pw u.password = true → u.isSuspended = true →
      loginEnhanced cfg db (some email) (some pw) remember req now = .error .accountSuspended) ∧
    (∀ req, findByEmail db (toLowerCase email) = none →
      loginEnhanced cfg db (some email) (some pw) remember req now = .error .invalidCredentials) ∧
    (∀ u req, findByEmail db (toLowerCase email) = some u → correctPassword pw u.password = false →
      loginEnhanced cfg db (some email) (some pw) remember req now
        = .error .invalidCredentials) := by
  refine ⟨?_, ?_, ?_, ?_, ?_, ?_, ?_⟩
  · intro h; simp [loginRoute, h]
  · intro u hu hv hp; simp [loginRoute, hu, hv, hp]
  · intro u hu hv; simp [loginRoute, hu, hv]
  · intro u hu hv hp; simp [loginRoute, hu, hv, hp]
  · intro u req hu hp hs; simp [loginEnhanced, hu, hp, hs]
  · intro req h; simp [loginEnhanced, h]
  · intro u req hu hp; simp [loginEnhanced, hu, hp]

/-- C5 witness: at a concrete store, an unknown email fails
`'Invalid credentials'` on the mounted route and a suspended account fails
`ACCOUNT_SUSPENDED` on the enhanced route. -/
theorem login_error_discipline_witness :
    loginRoute ⟨"as", "rs", "iss", "aud"⟩ [] (some "ghost@x.com") (some "pw") false 0
      = .error .invalidCredentials ∧
    loginEnhanced ⟨"as", "rs", "iss", "aud"⟩
        [{ id := 2, email := "s@x.com", password := "pw", isVerified := true
           isSuspended := true, role := "user", refreshToken := none, otp := none
           googleId := none, lastLogin := 0, lastActive := 0, loginCount := 0 }]
        (some "s@x.com") (some "pw") false ⟨none, none, none, none, none⟩ 0
      = .error .accountSuspended :=
  ⟨(login_error_discipline ⟨"as", "rs", "iss", "aud"⟩ [] "ghost@x.com" "pw" false 0).1 (by rfl),
   (login_error_discipline ⟨"as", "rs", "iss", "aud"⟩
      [{ id := 2, email := "s@x.com", password := "pw", isVerified := true
         isSuspended := true, role := "user", refreshToken := none, otp := none
         googleId := none, lastLogin := 0, lastActive := 0, loginCount := 0 }]
      "s@x.com" "pw" false 0).2.2.2.2.1
    { id := 2, email := "s@x.com", password := "pw", isVerified := true
      isSuspended := true, role := "user", refreshToken := none, otp := none
      googleId := none, lastLogin := 0, lastActive := 0, loginCount := 0 }
    ⟨none, none, none, none, none⟩ (by rfl) (by rfl) rfl⟩

theorem findById_some_id (db : Db) (i : Nat) (u : User)
    (h : findById db i = some u) : u.id = i := by
  have := List.find?_some h
  simpa using this

theorem findById_saveUser (db : Db) (v : User) (i : Nat) (hv : v.id = i)
    (h : (findById db i).isSome) : findById (saveUser db v) i = some v := by
  induction db with
  | nil => simp [findById] at h
  | cons w ws ih =>
    by_cases hw : w.id = i
    · simp [findById, saveUser, List.find?, hw, hv]
    · have hwv : ¬ w.id = v.id := by rw [hv]; exact hw
      have hsave : saveUser (w :: ws) v = w :: saveUser ws v := by
        simp [saveUser, hwv]
      rw [hsave]
      have htail : (findById ws i).isSome := by
        simpa [findById, List.find?, hw] using h
      have := ih htail
      simpa [findById, List.find?, hw] using this

/-- C1 counterexample. After a successful refresh, a subsequent refresh
call presenting a string different from the stored token need not fail
with `REFRESH_TOKEN_MISMATCH`: a string that is not a verifying refresh
JWT fails earlier, with `INVALID_REFRESH_TOKEN` — so "any refresh call
presenting a string not exactly equal to the stored one fails with the
RefreshMismatch error" is false as universally stated. -/
theorem refresh_mismatch_counterexample :
    refreshRoute ⟨"as", "rs", "iss", "aud"⟩
        [{ id := 1, email := "a@x.com", password := "pw", isVerified := true
           isSuspended := false, role := "user"
           refreshToken := some (.signed { id := 1, typ := some "refresh", iat := 0, exp := 1000
                                           iss := some "iss", aud := some "aud", fp := none } "rs")
           otp := none, googleId := none, lastLogin := 0, lastActive := 0, loginCount := 1 }]
        (some (.signed { id := 1, typ := some "refresh", iat := 0, exp := 1000
                         iss := some "iss", aud := some "aud", fp := none } "rs")) false 1
      = .ok { accessToken := .signed { id := 1, typ := some "access", iat := 1, exp := 901
                                       iss := some "iss", aud := some "aud", fp := none } "as"
              refreshToken := .signed { id := 1, typ := some "refresh", iat := 1, exp := 604801
                                        iss := some "iss", aud := some "aud", fp := none } "rs"
              db := [{ id := 1, email := "a@x.com", password := "pw", isVerified := true
                       isSuspended := false, role := "user"
                       refreshToken := some (.signed { id := 1, typ := some "refresh", iat := 1
                                                       exp := 604801, iss := some "iss"
                                                       aud := some "aud", fp := none } "rs")
                       otp := none, googleId := none, lastLogin := 0, lastActive := 1
                       loginCount := 1 }] } ∧
    refreshRoute ⟨"as", "rs", "iss", "aud"⟩
        [{ id := 1, email := "a@x.com", password := "pw", isVerified := true
           isSuspended := false, role := "user"
           refreshToken := some (.signed { id := 1, typ := some "refresh", iat := 1, exp := 604801
                                           iss := some "iss", aud := some "aud", fp := none } "rs")
           otp := none, googleId := none, lastLogin := 0, lastActive := 1, loginCount := 1 }]
        (some (.raw "garbage")) false 2
      = .error .invalidRefreshToken ∧
    RefreshErr.invalidRefreshToken ≠ RefreshErr.refreshTokenMismatch :=
  ⟨by rfl, by rfl, by decide⟩

/-- C1 amended. A successful refresh overwrites the user's stored refresh
token with the newly minted one; and any subsequent refresh call that
presents a token which verifies under the refresh secret (unexpired,
correct issuer/audience, type `refresh`, existing subject) — in
particular the previously issued, rotated-out refresh token — but is not
exactly the currently stored token, fails with `REFRESH_TOKEN_MISMATCH`
without minting or persisting anything; a presented string that does not
even verify fails earlier with `INVALID_REFRESH_TOKEN` or
`REFRESH_TOKEN_EXPIRED` instead. -/
theorem refresh_rotation (cfg : Config) (db : Db) (pl : Payload) (u : User)
    (remember : Bool) (now : Nat)
    (htyp : pl.typ = some "refresh") (hiss : pl.iss = some cfg.jwtIssuer)
    (haud : pl.aud = some cfg.jwtAudience) (hexp : now < pl.exp)
    (hu : findById db pl.id = some u) :
    (u.refreshToken ≠ some (.signed pl cfg.jwtRefreshSecret) →
      refreshRoute cfg db (some (.signed pl cfg.jwtRefreshSecret)) remember now
        = .error .refreshTokenMismatch) ∧
    (u.refreshToken = some (.signed pl cfg.jwtRefreshSecret) → u.isSuspended = false →
      refreshRoute cfg db (some (.signed pl cfg.jwtRefreshSecret)) remember now
        = .ok { accessToken := (generateTokens cfg u.id remember now).1
                refreshToken := (generateTokens cfg u.id remember now).2
                db := saveUser db { u with
                  refreshToken := some (generateTokens cfg u.id remember now).2
                  lastActive := now } } ∧
      findById (saveUser db { u with
          refreshToken := some (generateTokens cfg u.id remember now).2
          lastActive := now }) pl.id
        = some { u with
            refreshToken := some (generateTokens cfg u.id remember now).2
            lastActive := now }) ∧
    (u.refreshToken = some (.signed pl cfg.jwtRefreshSecret) →
      (generateTokens cfg u.id remember now).2 ≠ .signed pl cfg.jwtRefreshSecret →
      ∀ (remember2 : Bool) (t2 : Nat), t2 < pl.exp →
      refreshRoute cfg
          (saveUser db { u with
            refreshToken := some (generateTokens cfg u.id remember now).2
            lastActive := now })
          (some (.signed pl cfg.jwtRefreshSecret)) remember2 t2
        = .error .refreshTokenMismatch) := by
  have hid : u.id = pl.id := findById_some_id db pl.id u hu
  have hfind : findById (saveUser db { u with
      refreshToken := some (generateTokens cfg u.id remember now).2
      lastActive := now }) pl.id
    = some { u with
        refreshToken := some (generateTokens cfg u.id remember now).2
        lastActive := now } :=
    findById_saveUser db _ pl.id (by simpa using hid) (by simp [hu])
  refine ⟨?_, ?_, ?_⟩
  · intro hne
    simp [refreshRoute, jwtVerify, hiss, haud, Nat.not_le.2 hexp, htyp, hu, hne]
  · intro heq hsus
    refine ⟨?_, hfind⟩
    simp [refreshRoute, jwtVerify, hiss, haud, Nat.not_le.2 hexp, htyp, hu, heq, hsus, hid]
  · intro heq hne remember2 t2 ht2
    have hne' : ({ u with
        refreshToken := some (generateTokens cfg u.id remember now).2
        lastActive := now } : User).refreshToken
        ≠ some (.signed pl cfg.jwtRefreshSecret) := by
      simpa using fun hc => hne hc
    simp [refreshRoute, jwtVerify, hiss, haud, Nat.not_le.2 ht2, htyp, hfind, hne']

/-- C1 witness: a concrete successful refresh rotates the stored token,
and presenting the rotated-out (still unexpired, verifying) old token
afterwards fails with `REFRESH_TOKEN_MISMATCH`. -/
theorem refresh_rotation_witness :
    refreshRoute ⟨"as", "rs", "iss", "aud"⟩
        (saveUser
          [{ id := 1, email := "a@x.com", password := "pw", isVerified := true
             isSuspended := false, role := "user"
             refreshToken := some (.signed { id := 1, typ := some "refresh", iat := 0, exp := 1000
                                             iss := some "iss", aud := some "aud", fp := none } "rs")
             otp := none, googleId := none, lastLogin := 0, lastActive := 0, loginCount := 1 }]
          { id := 1, email := "a@x.com", password := "pw", isVerified := true
            isSuspended := false, role := "user"
            refreshToken := some (generateTokens ⟨"as", "rs", "iss", "aud"⟩ 1 false 1).2
            otp := none, googleId := none, lastLogin := 0, lastActive := 1, loginCount := 1 })
        (some (.signed { id := 1, typ := some "refresh", iat := 0, exp := 1000
                         iss := some "iss", aud := some "aud", fp := none } "rs")) false 2
      = .error .refreshTokenMismatch :=
  (refresh_rotation ⟨"as", "rs", "iss", "aud"⟩
      [{ id := 1, email := "a@x.com", password := "pw", isVerified := true
         isSuspended := false, role := "user"
         refreshToken := some (.signed { id := 1, typ := some "refresh", iat := 0, exp := 1000
                                         iss := some "iss", aud := some "aud", fp := none } "rs")
         otp := none, googleId := none, lastLogin := 0, lastActive := 0, loginCount := 1 }]
      { id := 1, typ := some "refresh", iat := 0, exp := 1000
        iss := some "iss", aud := some "aud", fp := none }
      { id := 1, email := "a@x.com", password := "pw", isVerified := true
        isSuspended := false, role := "user"
        refreshToken := some (.signed { id := 1, typ := some "refresh", iat := 0, exp := 1000
                                        iss := some "iss", aud := some "aud", fp := none } "rs")
        otp := none, googleId := none, lastLogin := 0, lastActive := 0, loginCount := 1 }
      false 1 rfl rfl rfl (by decide) (by rfl)).2.2 rfl (by decide) false 2 (by decide)


theorem googleUpdate_keeps (env : GooglePayload) (now : Nat) (v : User)
    (h : v.email = env.email ∧ v.googleId = some env.googleId) :
    (googleUpdate env now v).email = env.email ∧
    (googleUpdate env now v).googleId = some env.googleId := by
  obtain ⟨he, hg⟩ := h
  exact ⟨he, by simp [googleUpdate, hg, Option.orElse]⟩

theorem googleTxnAct_inv (env : GooglePayload) (now : Nat) (db : Db) (pc : GPc) (fresh : Nat)
    (hall : ∀ u ∈ db, u.email = env.email ∧ u.googleId = some env.googleId)
    (hlen : db.length ≤ 1) (hpc : pcLB pc ≤ db.length) :
    (∀ u ∈ (googleTxnAct env now db pc fresh).2,
      u.email = env.email ∧ u.googleId = some env.googleId) ∧
    (googleTxnAct env now db pc fresh).2.length ≤ 1 ∧
    pcLB (googleTxnAct env now db pc fresh).1 ≤ (googleTxnAct env now db pc fresh).2.length ∧
    db.length ≤ (googleTxnAct env now db pc fresh).2.length := by
  have hmap : ∀ uid, (∀ u ∈ db.map (fun u => if u.id = uid then googleUpdate env now u else u),
      u.email = env.email ∧ u.googleId = some env.googleId) := by
    intro uid u hu
    obtain ⟨v, hv, hvu⟩ := List.mem_map.1 hu
    by_cases hid : v.id = uid
    · rw [if_pos hid] at hvu
      subst hvu
      exact googleUpdate_keeps env now v (hall v hv)
    · rw [if_neg hid] at hvu
      subst hvu
      exact hall v hv
  cases pc with
  | start =>
    cases hf : findByEmail db env.email with
    | none =>
      simp only [googleTxnAct, hf, Option.map_none]
      exact ⟨hall, hlen, by simp [pcLB], le_refl _⟩
    | some u =>
      have hmem := List.mem_of_find?_eq_some hf
      have hpos : 0 < db.length := List.length_pos.2 (List.ne_nil_of_mem hmem)
      simp only [googleTxnAct, hf, Option.map_some]
      exact ⟨hall, hlen, by simpa [pcLB] using hpos, le_refl _⟩
  | looked found =>
    cases found with
    | none =>
      cases hg : findByGoogleId db env.googleId with
      | none =>
        have hempty : db = [] := by
          cases hdb : db with
          | nil => rfl
          | cons u us =>
            exfalso
            have hu := hall u (by rw [hdb]; exact List.mem_cons_self u us)
            have hne := List.find?_eq_none.1 hg u (by rw [hdb]; exact List.mem_cons_self u us)
            simp [hu.2] at hne
        subst hempty
        simp [googleTxnAct, hg, pcLB, mkGoogleUser]
      | some u =>
        have hmem := List.mem_of_find?_eq_some hg
        have hpos : 0 < db.length := List.length_pos.2 (List.ne_nil_of_mem hmem)
        simp only [googleTxnAct, hg]
        refine ⟨hmap u.id, by simpa using hlen, ?_, by simp⟩
        simpa [pcLB] using hpos
    | some uid =>
      simp only [googleTxnAct]
      refine ⟨hmap uid, by simpa using hlen, ?_, by simp⟩
      simpa [pcLB] using hpc
  | done =>
    simp only [googleTxnAct]
    exact ⟨hall, hlen, hpc, le_refl _⟩

theorem googleTxnStep_inv (env : GooglePayload) (now : Nat) (s : RaceState) (i : Bool)
    (h : googleInv env s) : googleInv env (googleTxnStep env now s i) := by
  obtain ⟨hall, hlen, h1, h2⟩ := h
  cases i with
  | true =>
    obtain ⟨hall', hlen', hpc', hmono⟩ :=
      googleTxnAct_inv env now s.db s.pc1 (googleFreshId true) hall hlen h1
    exact ⟨hall', hlen', hpc', le_trans h2 hmono⟩
  | false =>
    obtain ⟨hall', hlen', hpc', hmono⟩ :=
      googleTxnAct_inv env now s.db s.pc2 (googleFreshId false) hall hlen h2
    exact ⟨hall', hlen', le_trans h1 hmono, hpc'⟩

theorem googleTxnRun_inv (env : GooglePayload) (now : Nat) (sched : List Bool) :
    googleInv env (googleTxnRun env now sched) := by
  have base : googleInv env { db := [], pc1 := .start, pc2 := .start } := by
    refine ⟨by simp, by simp, by simp [pcLB], by simp [pcLB]⟩
  have : ∀ (l : List Bool) (s : RaceState), googleInv env s →
      googleInv env (l.foldl (googleTxnStep env now) s) := by
    intro l
    induction l with
    | nil => intro s hs; exact hs
    | cons b bs ih =>
      intro s hs
      exact ih _ (googleTxnStep_inv env now s b hs)
  exact this sched _ base

/-- C9 counterexample. The mounted `POST /google` route runs its
lookup-then-create with no transaction: the interleaving in which both
concurrent logins for the same brand-new email perform their email lookup
before either saves creates two user records with that email. -/
theorem oauth_duplicate_counterexample :
    countEmail (googleRouteRun ⟨"a@x.com", "g1", "N", "p"⟩ 0 [true, false, true, false]).db
        "a@x.com" = 2 ∧
    (googleRouteRun ⟨"a@x.com", "g1", "N", "p"⟩ 0 [true, false, true, false]).pc1 = .done ∧
    (googleRouteRun ⟨"a@x.com", "g1", "N", "p"⟩ 0 [true, false, true, false]).pc2 = .done :=
  ⟨by rfl, by rfl, by rfl⟩

/-- C9 amended. Only the `googleLogin` helper uses a transaction, and its
email lookup runs before the transaction begins; the transaction wraps the
provider-subject-id fallback lookup and the conditional create. Because
both concurrent logins for one brand-new email carry the same provider
subject id, that atomic fallback still makes every interleaving of two
concurrent helper executions create exactly one user record. The mounted
`POST /google` route, however, has no transaction at all, and a race
there can create duplicates. -/
theorem oauth_txn_single_user (env : GooglePayload) (now : Nat) (sched : List Bool) :
    countEmail (googleTxnRun env now sched).db env.email ≤ 1 ∧
    ((googleTxnRun env now sched).pc1 = .done ∨ (googleTxnRun env now sched).pc2 = .done →
      countEmail (googleTxnRun env now sched).db env.email = 1) := by
  obtain ⟨hall, hlen, h1, h2⟩ := googleTxnRun_inv env now sched
  have hfilter : (googleTxnRun env now sched).db.filter (fun u => u.email = env.email)
      = (googleTxnRun env now sched).db := by
    rw [List.filter_eq_self]
    intro u hu
    simp [(hall u hu).1]
  constructor
  · rw [countEmail, hfilter]
    exact hlen
  · intro hdone
    rw [countEmail, hfilter]
    have hge : 1 ≤ (googleTxnRun env now sched).db.length := by
      cases hdone with
      | inl h => rw [h] at h1; simpa [pcLB] using h1
      | inr h => rw [h] at h2; simpa [pcLB] using h2
    omega

/-- C9 witness: a concrete fully interleaved schedule of two transactional
logins for one brand-new email ends with exactly one user record. -/
theorem oauth_txn_single_user_witness :
    countEmail (googleTxnRun ⟨"a@x.com", "g1", "N", "p"⟩ 0 [true, false, true, false]).db
        "a@x.com" = 1 :=
  (oauth_txn_single_user ⟨"a@x.com", "g1", "N", "p"⟩ 0 [true, false, true, false]).2
    (Or.inl (by rfl))

theorem bl_lookup_some (bl : MemoryBlacklist) (t : TokenStr) (v : Nat)
    (h : bl.lookup t = some v) : ∃ e ∈ bl.tokens, e.1 = t ∧ e.2 = v := by
  unfold MemoryBlacklist.lookup at h
  cases hf : bl.tokens.find? (fun e => e.1 = t) with
  | none => rw [hf] at h; simp at h
  | some e =>
    rw [hf] at h
    simp only [Option.map_some', Option.some.injEq] at h
    have hmem := List.mem_of_find?_eq_some hf
    have hkey := List.find?_some hf
    simp only [decide_eq_true_eq] at hkey
    exact ⟨e, hmem, hkey, h⟩

theorem bl_lookup_none (bl : MemoryBlacklist) (t : TokenStr)
    (h : bl.lookup t = none) : ∀ e ∈ bl.tokens, e.1 ≠ t := by
  unfold MemoryBlacklist.lookup at h
  cases hf : bl.tokens.find? (fun e => e.1 = t) with
  | none =>
    intro e he
    have := List.find?_eq_none.1 hf e he
    simp only [decide_eq_true_eq] at this
    exact this
  | some e => rw [hf] at h; simp at h

theorem blInv_hasTok (t : TokenStr) (deadline tq : Nat) (bl : MemoryBlacklist)
    (h : BlInv t deadline tq bl) :
    (bl.hasTok t tq).1 = decide (tq ≤ deadline) := by
  obtain ⟨h1, h2⟩ := h
  unfold MemoryBlacklist.hasTok
  cases hl : bl.lookup t with
  | none =>
    have := h2 (bl_lookup_none bl t hl)
    simp [Nat.not_le.2 this]
  | some v =>
    obtain ⟨e, he, hkey, hval⟩ := bl_lookup_some bl t v hl
    have hv : v = deadline := hval ▸ h1 e he hkey
    subst hv
    by_cases hlt : v < tq
    · simp [hlt, Nat.not_le.2 hlt]
    · simp [hlt, Nat.le_of_not_lt hlt]

theorem blInv_add (bl : MemoryBlacklist) (t : TokenStr) (v tq : Nat) :
    BlInv t v tq (bl.setEntry t v) := by
  unfold MemoryBlacklist.setEntry
  cases hf : bl.tokens.find? (fun e => e.1 = t) with
  | none =>
    simp only [hf, Option.isSome_none, Bool.false_eq_true, if_false]
    constructor
    · intro e he hkey
      rcases List.mem_cons.1 he with rfl | he'
      · rfl
      · exfalso
        have := List.find?_eq_none.1 hf e he'
        simp [hkey] at this
    · intro hall
      exact absurd rfl (hall (t, v) (List.mem_cons_self _ _))
  | some e0 =>
    simp only [hf, Option.isSome_some, if_true]
    have hmem0 := List.mem_of_find?_eq_some hf
    have hkey0 := List.find?_some hf
    simp only [decide_eq_true_eq] at hkey0
    constructor
    · intro u hu hkey
      obtain ⟨e, he, heu⟩ := List.mem_map.1 hu
      by_cases hk : e.1 = t
      · rw [if_pos hk] at heu
        subst heu
        rfl
      · rw [if_neg hk] at heu
        subst heu
        exact absurd hkey hk
    · intro hall
      exact absurd rfl (hall (t, v) (List.mem_map.2 ⟨e0, hmem0, by simp [hkey0]⟩))

theorem blInv_step (t : TokenStr) (deadline tq : Nat) (bl : MemoryBlacklist)
    (op : BlOp) (tm : Nat) (htm : tm ≤ tq) (hop : ∀ ttl2, op ≠ BlOp.add t ttl2)
    (h : BlInv t deadline tq bl) : BlInv t deadline tq (blStep bl (op, tm)) := by
  obtain ⟨h1, h2⟩ := h
  cases op with
  | add t2 ttl2 =>
    have hne : t2 ≠ t := by
      intro hc
      exact hop ttl2 (by rw [hc])
    show BlInv t deadline tq (bl.setEntry t2 (tm + ttl2))
    unfold MemoryBlacklist.setEntry
    cases hf : bl.tokens.find? (fun e => e.1 = t2) with
    | none =>
      simp only [hf, Option.isSome_none, Bool.false_eq_true, if_false]
      constructor
      · intro e he hkey
        rcases List.mem_cons.1 he with rfl | he'
        · exact absurd hkey hne
        · exact h1 e he' hkey
      · intro hall
        refine h2 fun e he => hall e (List.mem_cons_of_mem _ he)
    | some e0 =>
      simp only [hf, Option.isSome_some, if_true]
      constructor
      · intro u hu hkey
        obtain ⟨e, he, heu⟩ := List.mem_map.1 hu
        by_cases hk : e.1 = t2
        · rw [if_pos hk] at heu
          subst heu
          exact absurd hkey hne
        · rw [if_neg hk] at heu
          subst heu
          exact h1 e he hkey
      · intro hall
        refine h2 fun e he => ?_
        intro hkey
        by_cases hk : e.1 = t2
        · rw [hkey] at hk; exact hne hk.symm
        · exact hall e (List.mem_map.2 ⟨e, he, by rw [if_neg hk]⟩) hkey
  | has t2 =>
    show BlInv t deadline tq (bl.hasTok t2 tm).2
    unfold MemoryBlacklist.hasTok
    cases hl : bl.lookup t2 with
    | none => exact ⟨h1, h2⟩
    | some v =>
      by_cases hlt : v < tm
      · simp only [hlt, if_pos]
        unfold MemoryBlacklist.deleteEntry
        by_cases ht2 : t2 = t
        · subst ht2
          obtain ⟨e, he, hkey, hval⟩ := bl_lookup_some bl t2 v hl
          have hvd : v = deadline := hval ▸ h1 e he hkey
          constructor
          · intro u hu hk
            exact h1 u (List.mem_filter.1 hu).1 hk
          · intro _
            omega
        · constructor
          · intro u hu hk
            exact h1 u (List.mem_filter.1 hu).1 hk
          · intro hall
            refine h2 fun e he => ?_
            intro hkey
            refine hall e (List.mem_filter.2 ⟨he, ?_⟩) hkey
            simp only [hkey, decide_eq_true_eq]
            exact fun hc => ht2 hc.symm
      · simp only [hlt, if_neg]
        exact ⟨h1, h2⟩
  | cleanup =>
    show BlInv t deadline tq (bl.cleanup tm)
    unfold MemoryBlacklist.cleanup
    constructor
    · intro u hu hk
      exact h1 u (List.mem_filter.1 hu).1 hk
    · intro hall
      by_cases hex : ∃ e ∈ bl.tokens, e.1 = t
      · obtain ⟨e, he, hkey⟩ := hex
        have hval := h1 e he hkey
        by_cases hkeep : e.2 < tm
        · omega
        · exfalso
          refine hall e (List.mem_filter.2 ⟨he, ?_⟩) hkey
          simpa using hkeep
      · refine h2 fun e he => ?_
        intro hkey
        exact hex ⟨e, he, hkey⟩

theorem blInv_run (t : TokenStr) (deadline tq : Nat) (bl : MemoryBlacklist)
    (ops : List (BlOp × Nat))
    (hops : ∀ p ∈ ops, p.2 ≤ tq ∧ ∀ ttl2, p.1 ≠ BlOp.add t ttl2)
    (h : BlInv t deadline tq bl) : BlInv t deadline tq (blRun bl ops) := by
  induction ops generalizing bl with
  | nil => exact h
  | cons p ps ih =>
    obtain ⟨htm, hop⟩ := hops p (List.mem_cons_self _ _)
    have hstep : BlInv t deadline tq (blStep bl p) := by
      obtain ⟨op, tm⟩ := p
      exact blInv_step t deadline tq bl op tm htm hop h
    exact ih (blStep bl p) (fun q hq => hops q (List.mem_cons_of_mem _ hq)) hstep

/-- C7. After `add(token, ttl)` records the deadline `t0 + ttl`, and for
any further operations on the store at times up to `tq` that do not
re-add this token, a `has(token)` lookup at `tq` answers `true` exactly
when `tq` is at most the recorded deadline — `true` until the deadline,
`false` at every lookup strictly after it, whatever purges happened in
between; the Redis path computes each entry's TTL as the token's
remaining lifetime, so the entry's absolute deadline is the token's own
`exp` claim. -/
theorem revocation_until_expiry (bl : MemoryBlacklist) (t : TokenStr) (ttl t0 tq : Nat)
    (ops : List (BlOp × Nat))
    (hops : ∀ p ∈ ops, p.2 ≤ tq ∧ ∀ ttl2, p.1 ≠ BlOp.add t ttl2) :
    ((blRun (bl.add t ttl t0) ops).hasTok t tq).1 = decide (tq ≤ t0 + ttl) ∧
    (∀ e nowSec : Nat, nowSec < e →
      addToBlacklistTtl (some e) nowSec = some ((e - nowSec) * 1000) ∧
      nowSec * 1000 + (e - nowSec) * 1000 = e * 1000) := by
  constructor
  · have hinit : BlInv t (t0 + ttl) tq (bl.add t ttl t0) := blInv_add bl t (t0 + ttl) tq
    exact blInv_hasTok t (t0 + ttl) tq _ (blInv_run t (t0 + ttl) tq _ ops hops hinit)
  · intro e nowSec hlt
    constructor
    · have : 0 < (e - nowSec) * 1000 := by
        have : 0 < e - nowSec := Nat.sub_pos_of_lt hlt
        omega
      simp [addToBlacklistTtl, this]
    · have : nowSec + (e - nowSec) = e := Nat.add_sub_cancel' (Nat.le_of_lt hlt)
      omega

/-- C7 witness: a concrete revocation with later lookups — `true` at the
deadline even after an unrelated purge-inducing lookup and a sweep,
`false` strictly after it. -/
theorem revocation_until_expiry_witness :
    ((blRun (MemoryBlacklist.add ⟨[]⟩ (.raw "tok") 50 100)
        [(.has (.raw "other"), 120), (.cleanup, 130)]).hasTok (.raw "tok") 150).1
      = decide ((150 : Nat) ≤ 100 + 50) :=
  (revocation_until_expiry ⟨[]⟩ (.raw "tok") 50 100 150
    [(.has (.raw "other"), 120), (.cleanup, 130)]
    (by
      intro p hp
      simp only [List.mem_cons, List.not_mem_nil, or_false] at hp
      rcases hp with rfl | rfl
      · exact ⟨by norm_num, fun ttl2 h => BlOp.noConfusion h⟩
      · exact ⟨by norm_num, fun ttl2 h => BlOp.noConfusion h⟩)).1

end Verdent
